import Mathlib

/-!
Verification of the monitoring core of `api_monitor.py` / `cli_monitor.py`
(an HTTP endpoint status monitor), via a shallow embedding in Lean.

The network is modelled by the terminal outcome of one `urllib` attempt
(`Outcome` below); elapsed wall-clock milliseconds are a nonnegative input
(the spec assumes a monotonic clock).  Everything else — registry, prober
classification, history ring, scheduler state — is translated directly
from the Python source.
-/

namespace Monitor

/-- Status labels used by `api_monitor.py` (the strings
`'up' / 'warning' / 'down' / 'unknown'`). -/
inductive Status where
  | up
  | warning
  | down
  | unknown
deriving DecidableEq, Repr

/-- The terminal outcome of one `urllib.request.urlopen` attempt, as
distinguished by the `try/except` arms of `check_url`:
a response object was returned; an `HTTPError` (carries code and reason);
a `URLError` (carries only a reason); any other exception. -/
inductive Outcome where
  | response (code : Nat)
  | httpError (code : Nat) (reason : String)
  | urlError (reason : String)
  | otherError (msg : String)
deriving DecidableEq, Repr

/-- The dict returned by `APIMonitor.check_url`. -/
structure CheckResult where
  status : Status
  response_time : Nat
  status_code : Option Nat
  error : Option String
deriving DecidableEq, Repr

/-- `APIMonitor.check_url` (api_monitor.py lines 56-98), as a function of
the attempt's terminal outcome and the elapsed milliseconds. -/
def check_url (o : Outcome) (rt : Nat) : CheckResult :=
  match o with
  | .response code =>
      { status := if 200 ≤ code ∧ code < 400 then .up else .warning
        response_time := rt
        status_code := some code
        error := none }
  | .httpError code reason =>
      { status := .down
        response_time := rt
        status_code := some code
        error := some ("HTTP Error: " ++ toString code ++ " " ++ reason) }
  | .urlError reason =>
      { status := .down
        response_time := rt
        status_code := none
        error := some ("URL Error: " ++ reason) }
  | .otherError msg =>
      { status := .down
        response_time := rt
        status_code := none
        error := some ("Error: " ++ msg) }

/-- The dict returned by `CLIAPIMonitor.check_url` (cli_monitor.py lines
29-76); its status field is a display string. -/
structure CliCheckResult where
  status : String
  response_time : Nat
  status_code : Option Nat
  error : Option String
deriving DecidableEq, Repr

/-- `CLIAPIMonitor.check_url` (cli_monitor.py lines 29-76). -/
def cli_check_url (o : Outcome) (rt : Nat) : CliCheckResult :=
  match o with
  | .response code =>
      { status := if 200 ≤ code ∧ code < 400 then "🟢 UP" else "🟡 WARNING"
        response_time := rt
        status_code := some code
        error := none }
  | .httpError code reason =>
      { status := "🔴 DOWN"
        response_time := rt
        status_code := some code
        error := some ("HTTP " ++ toString code ++ ": " ++ reason) }
  | .urlError reason =>
      { status := "🔴 DOWN"
        response_time := rt
        status_code := none
        error := some ("Connection Error: " ++ reason) }
  | .otherError msg =>
      { status := "🔴 DOWN"
        response_time := rt
        status_code := none
        error := some ("Error: " ++ msg) }

end Monitor

namespace Monitor

/-- C1: the Prober classifies every terminal outcome as the spec states:
a received response with code in [200, 400) is Up; a received response with
code outside that range is Warning; an HTTP-error (transport failure that
carried an HTTP status) is Down with the code preserved and a message
summarizing code and reason; a URL-error (connection failure, no status) is
Down with no code and a transport-error message; any other failure is Down
with no code and a generic message. -/
theorem check_url_classification :
    (∀ code rt, 200 ≤ code → code < 400 →
      check_url (.response code) rt =
        { status := .up, response_time := rt, status_code := some code, error := none }) ∧
    (∀ code rt, code < 200 ∨ 400 ≤ code →
      check_url (.response code) rt =
        { status := .warning, response_time := rt, status_code := some code, error := none }) ∧
    (∀ code reason rt,
      check_url (.httpError code reason) rt =
        { status := .down, response_time := rt, status_code := some code,
          error := some ("HTTP Error: " ++ toString code ++ " " ++ reason) }) ∧
    (∀ reason rt,
      check_url (.urlError reason) rt =
        { status := .down, response_time := rt, status_code := none,
          error := some ("URL Error: " ++ reason) }) ∧
    (∀ msg rt,
      check_url (.otherError msg) rt =
        { status := .down, response_time := rt, status_code := none,
          error := some ("Error: " ++ msg) }) := by
  refine ⟨?_, ?_, ?_, ?_, ?_⟩
  · intro code rt h1 h2
    have hpos : 200 ≤ code ∧ code < 400 := ⟨h1, h2⟩
    simp [check_url, if_pos hpos]
  · intro code rt h
    have hneg : ¬ (200 ≤ code ∧ code < 400) := by omega
    simp [check_url, if_neg hneg]
  · intro code reason rt; rfl
  · intro reason rt; rfl
  · intro msg rt; rfl

/-- Witness for C1: the classification rule evaluated at concrete
outcomes (a 200 response, a 404 response, a 500 HTTP error, a URL error,
an unexpected exception). -/
theorem check_url_classification_witness :
    check_url (.response 200) 12 =
      { status := .up, response_time := 12, status_code := some 200, error := none } ∧
    check_url (.response 404) 7 =
      { status := .warning, response_time := 7, status_code := some 404, error := none } ∧
    check_url (.httpError 500 "Internal Server Error") 3 =
      { status := .down, response_time := 3, status_code := some 500,
        error := some "HTTP Error: 500 Internal Server Error" } ∧
    check_url (.urlError "getaddrinfo failed") 9 =
      { status := .down, response_time := 9, status_code := none,
        error := some "URL Error: getaddrinfo failed" } ∧
    check_url (.otherError "boom") 1 =
      { status := .down, response_time := 1, status_code := none,
        error := some "Error: boom" } :=
  ⟨check_url_classification.1 200 12 (by decide) (by decide),
   check_url_classification.2.1 404 7 (Or.inr (by decide)),
   check_url_classification.2.2.1 500 "Internal Server Error" 3,
   check_url_classification.2.2.2.1 "getaddrinfo failed" 9,
   check_url_classification.2.2.2.2 "boom" 1⟩

/-- The spec's "exactly one of {httpStatusCode present, errorMessage
present}" for a probe result. -/
def exactlyOneOf (r : CheckResult) : Prop :=
  (r.status_code.isSome ∧ r.error = none) ∨ (r.status_code = none ∧ r.error.isSome)

/-- C2 counterexample: the probe result of an HTTP error (HTTP 500 treated
as a transport-level error) is not Up, yet carries BOTH a status code and
an error message, so "exactly one of {httpStatusCode present, errorMessage
present}" fails for this non-Up case. -/
theorem check_url_exactly_one_counterexample :
    (check_url (.httpError 500 "Internal Server Error") 12).status ≠ .up ∧
    (check_url (.httpError 500 "Internal Server Error") 12).status_code.isSome ∧
    (check_url (.httpError 500 "Internal Server Error") 12).error.isSome ∧
    ¬ exactlyOneOf (check_url (.httpError 500 "Internal Server Error") 12) := by
  refine ⟨by simp [check_url], by simp [check_url], by simp [check_url], ?_⟩
  intro h
  rcases h with ⟨_, h2⟩ | ⟨h1, _⟩
  · exact absurd h2 (by simp [check_url])
  · exact absurd h1 (by simp [check_url])

/-- C2 amended: after any probe, `responseTimeMs >= 0`, and in every
non-Up case at least one of {httpStatusCode present, errorMessage present}
holds; a Warning carries a status code and no error message, a Down always
carries an error message, and a Down carries a status code exactly when
the failure was an HTTP error (transport failure with an HTTP status), in
which case both are present.  The same holds for the CLI front end's
prober. -/
theorem check_url_fields (o : Outcome) (rt : Nat) :
    0 ≤ (check_url o rt).response_time ∧
    ((check_url o rt).status ≠ .up →
      (check_url o rt).status_code.isSome ∨ (check_url o rt).error.isSome) ∧
    ((check_url o rt).status = .warning →
      (check_url o rt).status_code.isSome ∧ (check_url o rt).error = none) ∧
    ((check_url o rt).status = .down → (check_url o rt).error.isSome) ∧
    ((check_url o rt).status = .down →
      ((check_url o rt).status_code.isSome ↔ ∃ c reas, o = .httpError c reas)) ∧
    0 ≤ (cli_check_url o rt).response_time ∧
    ((cli_check_url o rt).status ≠ "🟢 UP" →
      (cli_check_url o rt).status_code.isSome ∨ (cli_check_url o rt).error.isSome) ∧
    ((cli_check_url o rt).status = "🟡 WARNING" →
      (cli_check_url o rt).status_code.isSome ∧ (cli_check_url o rt).error = none) ∧
    ((cli_check_url o rt).status = "🔴 DOWN" → (cli_check_url o rt).error.isSome) := by
  cases o with
  | response code =>
      by_cases h : 200 ≤ code ∧ code < 400 <;>
        simp [check_url, cli_check_url, h]
  | httpError code reason =>
      refine ⟨by simp [check_url], by simp [check_url], by simp [check_url],
        by simp [check_url], ?_, by simp [cli_check_url], by simp [cli_check_url],
        by simp [cli_check_url], by simp [cli_check_url]⟩
      intro _
      simp [check_url]
  | urlError reason =>
      simp [check_url, cli_check_url]
  | otherError msg =>
      simp [check_url, cli_check_url]

/-- Witness for C2: the amended field discipline at concrete probes — a
connection failure carries an error message; a 500 HTTP error carries a
status code (alongside its error message). -/
theorem check_url_fields_witness :
    (check_url (.urlError "connection refused") 5).error.isSome ∧
    (check_url (.httpError 500 "Internal Server Error") 3).status_code.isSome :=
  ⟨(check_url_fields (.urlError "connection refused") 5).2.2.2.1 rfl,
   ((check_url_fields (.httpError 500 "Internal Server Error") 3).2.2.2.2.1 rfl).mpr
     ⟨500, "Internal Server Error", rfl⟩⟩

/-- A history entry as built by `monitor_urls` (api_monitor.py lines
112-117): timestamp, status, response_time and status_code of the probe
result.  The `error` field of the result is not stored. -/
structure HistoryEntry where
  timestamp : Nat
  status : Status
  response_time : Nat
  status_code : Option Nat
deriving DecidableEq, Repr

/-- History append (api_monitor.py lines 118-120): `append`, then `pop(0)`
when the length exceeds 50. -/
def pushHistory (h : List HistoryEntry) (e : HistoryEntry) : List HistoryEntry :=
  let h2 := h ++ [e]
  if 50 < h2.length then h2.eraseIdx 0 else h2

/-- The per-url entry of `status_data` (api_monitor.py lines 36-43),
timestamps modelled as naturals. -/
structure TargetState where
  status : Status
  response_time : Nat
  last_check : Option Nat
  status_code : Option Nat
  error : Option String
  history : List HistoryEntry
deriving DecidableEq, Repr

/-- The `TargetState` installed by `add_url` (api_monitor.py lines 36-43). -/
def initialTargetState : TargetState :=
  { status := .unknown, response_time := 0, last_check := none,
    status_code := none, error := none, history := [] }

/-- The history-entry dict of `monitor_urls` (api_monitor.py lines
112-117), built from a probe result and the timestamp of the second
`datetime.now()` call. -/
def historyEntryOfResult (ts : Nat) (r : CheckResult) : HistoryEntry :=
  { timestamp := ts, status := r.status, response_time := r.response_time,
    status_code := r.status_code }

/-- The per-target body of the `monitor_urls` loop (api_monitor.py lines
107-120): merge the check result into the target's state, set
`last_check` to the first `datetime.now()` value `ts`, and append a
history entry stamped with the second `datetime.now()` value `ts2`. -/
def updateStatusData (d : TargetState) (r : CheckResult) (ts ts2 : Nat) : TargetState :=
  { status := r.status, response_time := r.response_time, last_check := some ts,
    status_code := r.status_code, error := r.error,
    history := pushHistory d.history (historyEntryOfResult ts2 r) }

/-- One scheduler cycle's input for a single target: the probe result and
the two clock readings. -/
structure CycleInput where
  result : CheckResult
  ts : Nat
  ts2 : Nat
deriving DecidableEq, Repr

/-- The history entry a cycle input gives rise to. -/
def cycleEntry (i : CycleInput) : HistoryEntry :=
  historyEntryOfResult i.ts2 i.result

/-- Running the scheduler loop body for one target over a sequence of
consecutive cycles. -/
def runCycles (d : TargetState) (inputs : List CycleInput) : TargetState :=
  inputs.foldl (fun d i => updateStatusData d i.result i.ts i.ts2) d

theorem pushHistory_of_lt {h : List HistoryEntry} (e : HistoryEntry)
    (hlt : h.length < 50) : pushHistory h e = h ++ [e] := by
  unfold pushHistory
  rw [if_neg]
  simp only [List.length_append, List.length_singleton]
  omega

theorem pushHistory_of_eq {h : List HistoryEntry} (e : HistoryEntry)
    (heq : h.length = 50) : pushHistory h e = (h ++ [e]).drop 1 := by
  unfold pushHistory
  rw [if_pos, List.eraseIdx_zero, ← List.drop_one]
  simp only [List.length_append, List.length_singleton]
  omega

theorem pushHistory_length_le {h : List HistoryEntry} (e : HistoryEntry)
    (hh : h.length ≤ 50) : (pushHistory h e).length ≤ 50 := by
  rcases Nat.lt_or_ge h.length 50 with hlt | hge
  · rw [pushHistory_of_lt e hlt]
    simp only [List.length_append, List.length_singleton]
    omega
  · have heq : h.length = 50 := Nat.le_antisymm hh hge
    rw [pushHistory_of_eq e heq]
    simp only [List.length_drop, List.length_append, List.length_singleton]
    omega

/-- Folding history appends keeps exactly the most recent 50 entries (all
of them while there are at most 50). -/
theorem foldl_pushHistory_drop (es : List HistoryEntry) :
    ∀ h : List HistoryEntry, h.length ≤ 50 →
      List.foldl pushHistory h es = (h ++ es).drop ((h ++ es).length - 50) := by
  induction es with
  | nil =>
      intro h hh
      simp only [List.foldl_nil, List.append_nil]
      rw [Nat.sub_eq_zero_of_le hh, List.drop_zero]
  | cons e es ih =>
      intro h hh
      rw [List.foldl_cons]
      rcases Nat.lt_or_ge h.length 50 with hlt | hge
      · rw [pushHistory_of_lt e hlt,
          ih (h ++ [e]) (by simp only [List.length_append, List.length_singleton]; omega)]
        rw [List.append_assoc, List.singleton_append]
      · have heq : h.length = 50 := Nat.le_antisymm hh hge
        rw [pushHistory_of_eq e heq,
          ih ((h ++ [e]).drop 1)
            (by simp only [List.length_drop, List.length_append, List.length_singleton]; omega)]
        rw [← List.drop_append_of_le_length
            (by simp only [List.length_append, List.length_singleton]; omega),
          List.drop_drop, List.append_assoc, List.singleton_append]
        congr 1
        simp only [List.length_drop, List.length_append, List.length_singleton,
          List.length_cons]
        omega

/-- The history component of a run of cycles is the fold of history
appends over the entries the cycles produce. -/
theorem runCycles_history (inputs : List CycleInput) :
    ∀ d : TargetState,
      (runCycles d inputs).history =
        List.foldl pushHistory d.history (inputs.map cycleEntry) := by
  induction inputs with
  | nil => intro d; rfl
  | cons i is ih =>
      intro d
      show (runCycles (updateStatusData d i.result i.ts i.ts2) is).history = _
      rw [ih, List.map_cons, List.foldl_cons]
      rfl

/-- C3: over any sequence of scheduler cycles against one target (started
from the freshly registered state), the history is exactly the
chronological list of produced entries with all but the most recent 50
dropped — so it is ordered oldest-to-newest, never holds more than 50
entries, and after 51 or more cycles holds exactly the most recent 50. -/
theorem scheduler_history_bounded (inputs : List CycleInput) :
    (runCycles initialTargetState inputs).history =
      (inputs.map cycleEntry).drop (inputs.length - 50) ∧
    (runCycles initialTargetState inputs).history.length ≤ 50 ∧
    (51 ≤ inputs.length → (runCycles initialTargetState inputs).history.length = 50) := by
  have hmain : (runCycles initialTargetState inputs).history =
      (inputs.map cycleEntry).drop (inputs.length - 50) := by
    rw [runCycles_history inputs initialTargetState]
    have h0 : (initialTargetState.history : List HistoryEntry) = [] := rfl
    rw [h0, foldl_pushHistory_drop (inputs.map cycleEntry) [] (by simp)]
    simp only [List.nil_append, List.length_map]
  refine ⟨hmain, ?_, ?_⟩
  · rw [hmain]
    simp only [List.length_drop, List.length_map]
    omega
  · intro h51
    rw [hmain]
    simp only [List.length_drop, List.length_map]
    omega

/-- A concrete run of 51 scheduler cycles. -/
def witnessCycles : List CycleInput :=
  (List.range 51).map (fun k => { result := check_url (.response 200) k, ts := k, ts2 := k })

/-- Witness for C3: after 51 concrete consecutive cycles the history
length is exactly 50. -/
theorem scheduler_history_bounded_witness :
    51 ≤ witnessCycles.length ∧
    (runCycles initialTargetState witnessCycles).history.length = 50 :=
  ⟨by simp [witnessCycles],
   (scheduler_history_bounded witnessCycles).2.2 (by simp [witnessCycles])⟩

/-- A url_info dict (api_monitor.py lines 30-34). -/
structure Target where
  url : String
  name : String
  id : Nat
deriving DecidableEq, Repr, Inhabited

/-- The fields of the global `APIMonitor` instance relevant to the core:
the `urls` list, the `status_data` dict keyed by url, and the `monitoring`
flag.  (The thread handle is a concurrency artifact and is not part of the
observable state.) -/
structure MonitorState where
  urls : List Target
  status_data : String → Option TargetState
  monitoring : Bool

/-- `APIMonitor.__init__` (api_monitor.py lines 19-23). -/
def emptyMonitor : MonitorState :=
  { urls := [], status_data := fun _ => none, monitoring := false }

/-- `APIMonitor.add_url` (api_monitor.py lines 25-43): append a url_info
with `id = len(urls)` (name defaulting to the url), and install a fresh
initial `status_data` entry under the url key, overwriting any previous
entry for that url. -/
def add_url (s : MonitorState) (url : String) (name : Option String) : MonitorState :=
  { s with
    urls := s.urls ++ [{ url := url, name := name.getD url, id := s.urls.length }],
    status_data := fun k => if k = url then some initialTargetState else s.status_data k }

/-- The reindexing loop of `remove_url` (api_monitor.py lines 52-54):
`for i, url_info in enumerate(self.urls): url_info['id'] = i`. -/
def reindexFrom (n : Nat) : List Target → List Target
  | [] => []
  | t :: ts => { t with id := n } :: reindexFrom (n + 1) ts

/-- `APIMonitor.remove_url` (api_monitor.py lines 45-54): a no-op unless
`0 <= url_id < len(urls)`; otherwise pop the target at that index, delete
its url's `status_data` entry, and reassign `id = position` to every
remaining target. -/
def remove_url (s : MonitorState) (url_id : Int) : MonitorState :=
  if h : 0 ≤ url_id ∧ url_id < s.urls.length then
    { s with
      urls := reindexFrom 0 (s.urls.eraseIdx url_id.toNat),
      status_data := fun k =>
        if k = (s.urls.get ⟨url_id.toNat, by omega⟩).url then none
        else s.status_data k }
  else s

/-- `APIMonitor.start_monitoring` (api_monitor.py lines 124-129): only
when not already monitoring and the urls list is non-empty does the flag
flip to true (and the background thread launch). -/
def start_monitoring (s : MonitorState) : MonitorState :=
  if s.monitoring = false ∧ s.urls ≠ [] then { s with monitoring := true } else s

/-- `APIMonitor.stop_monitoring` (api_monitor.py lines 131-135): clear the
flag unconditionally (the join is a bounded wait with no state effect). -/
def stop_monitoring (s : MonitorState) : MonitorState :=
  { s with monitoring := false }

/-- A registry mutation issued by an external caller. -/
inductive Op where
  | add (url : String) (name : Option String)
  | remove (id : Int)

/-- Apply one registry mutation. -/
def applyOp (s : MonitorState) (op : Op) : MonitorState :=
  match op with
  | .add u n => add_url s u n
  | .remove i => remove_url s i

/-- Apply a sequence of registry mutations to the initially empty state. -/
def applyOps (ops : List Op) : MonitorState :=
  ops.foldl applyOp emptyMonitor

/-- Ids are dense 0-based positions: every target's id equals its index. -/
def idsContiguous (l : List Target) : Prop :=
  ∀ i (h : i < l.length), (l.get ⟨i, h⟩).id = i

theorem reindexFrom_length (l : List Target) : ∀ n, (reindexFrom n l).length = l.length := by
  induction l with
  | nil => intro n; rfl
  | cons t ts ih => intro n; simp [reindexFrom, ih]

theorem reindexFrom_get (l : List Target) :
    ∀ n i (h : i < (reindexFrom n l).length), ((reindexFrom n l).get ⟨i, h⟩).id = n + i := by
  induction l with
  | nil => intro n i h; simp [reindexFrom] at h
  | cons t ts ih =>
      intro n i h
      cases i with
      | zero => rfl
      | succ m =>
          have hm : m < (reindexFrom (n + 1) ts).length := by
            simpa [reindexFrom] using h
          have := ih (n + 1) m hm
          simpa [reindexFrom, Nat.add_assoc, Nat.add_comm, Nat.add_left_comm] using this

theorem reindexFrom_map_url (l : List Target) :
    ∀ n, (reindexFrom n l).map (fun t => t.url) = l.map (fun t => t.url) := by
  induction l with
  | nil => intro n; rfl
  | cons t ts ih => intro n; simp [reindexFrom, ih]

theorem reindexFrom_map_name (l : List Target) :
    ∀ n, (reindexFrom n l).map (fun t => t.name) = l.map (fun t => t.name) := by
  induction l with
  | nil => intro n; rfl
  | cons t ts ih => intro n; simp [reindexFrom, ih]

theorem map_eraseIdx {α β : Type} (f : α → β) :
    ∀ (l : List α) (i : Nat), (l.eraseIdx i).map f = (l.map f).eraseIdx i := by
  intro l
  induction l with
  | nil => intro i; cases i <;> rfl
  | cons a l ih =>
      intro i
      cases i with
      | zero => rfl
      | succ n => simp [List.eraseIdx_cons_succ, ih]

theorem remove_url_neg (s : MonitorState) (url_id : Int)
    (h : ¬ (0 ≤ url_id ∧ url_id < s.urls.length)) : remove_url s url_id = s := by
  unfold remove_url
  rw [dif_neg h]

theorem remove_url_pos (s : MonitorState) (url_id : Int)
    (h : 0 ≤ url_id ∧ url_id < s.urls.length) :
    remove_url s url_id =
      { s with
        urls := reindexFrom 0 (s.urls.eraseIdx url_id.toNat),
        status_data := fun k =>
          if k = (s.urls.get ⟨url_id.toNat, by omega⟩).url then none
          else s.status_data k } := by
  unfold remove_url
  rw [dif_pos h]

theorem idsContiguous_applyOp (s : MonitorState) (op : Op)
    (hs : idsContiguous s.urls) : idsContiguous (applyOp s op).urls := by
  cases op with
  | add u nm =>
      intro i h
      have hlen : (applyOp s (.add u nm)).urls =
          s.urls ++ [{ url := u, name := nm.getD u, id := s.urls.length }] := rfl
      rw [List.get_eq_getElem]
      rcases Nat.lt_or_ge i s.urls.length with hi | hi
      · have := hs i hi
        rw [List.get_eq_getElem] at this
        simpa [hlen, List.getElem_append_left hi] using this
      · have hlt : i < s.urls.length + 1 := by
          simpa [hlen] using h
        have hieq : i = s.urls.length := by omega
        subst hieq
        simp [hlen, List.getElem_append_right (Nat.le_refl _)]
  | remove url_id =>
      by_cases hc : 0 ≤ url_id ∧ url_id < s.urls.length
      · intro i h
        have hurls : (applyOp s (.remove url_id)).urls =
            reindexFrom 0 (s.urls.eraseIdx url_id.toNat) := by
          show (remove_url s url_id).urls = _
          rw [remove_url_pos s url_id hc]
        rw [List.get_eq_getElem]
        have h' : i < (reindexFrom 0 (s.urls.eraseIdx url_id.toNat)).length := by
          simpa [hurls] using h
        have := reindexFrom_get (s.urls.eraseIdx url_id.toNat) 0 i h'
        rw [List.get_eq_getElem] at this
        simpa [hurls] using this
      · show idsContiguous (remove_url s url_id).urls
        rw [remove_url_neg s url_id hc]
        exact hs

/-- C4: for every sequence of add/remove calls applied to the initially
empty registry, target ids are contiguous `0..n-1`, each equal to the
target's current position. -/
theorem registry_ids_contiguous (ops : List Op) :
    idsContiguous (applyOps ops).urls := by
  unfold applyOps
  suffices h : ∀ s, idsContiguous s.urls → idsContiguous (List.foldl applyOp s ops).urls by
    refine h emptyMonitor ?_
    intro i hi
    simp [emptyMonitor] at hi
  induction ops with
  | nil => intro s hs; exact hs
  | cons op ops ih =>
      intro s hs
      exact ih _ (idsContiguous_applyOp s op hs)

/-- A concrete mutation sequence: three adds then a removal. -/
def witnessOps : List Op :=
  [.add "https://a.example" none, .add "https://b.example" (some "B"),
   .add "https://c.example" none, .remove 1]

/-- Witness for C4: after three adds and a removal the ids are `[0, 1]`
and the contiguity invariant holds. -/
theorem registry_ids_contiguous_witness :
    (applyOps witnessOps).urls.map (fun t => t.id) = [0, 1] ∧
    idsContiguous (applyOps witnessOps).urls :=
  ⟨by decide, registry_ids_contiguous witnessOps⟩

/-- C5: `RemoveTarget` with an out-of-bounds id is a silent no-op leaving
the whole state unchanged; with a valid id it removes the target at that
position (urls and names of the others kept in relative order), deletes
the removed target's `status_data` entry (its state is no longer
retrievable), and reassigns `id = position` to every remaining target. -/
theorem remove_target_spec (s : MonitorState) (url_id : Int) :
    (¬ (0 ≤ url_id ∧ url_id < s.urls.length) → remove_url s url_id = s) ∧
    (∀ h : 0 ≤ url_id ∧ url_id < s.urls.length,
      (remove_url s url_id).urls = reindexFrom 0 (s.urls.eraseIdx url_id.toNat) ∧
      (remove_url s url_id).status_data ((s.urls.get ⟨url_id.toNat, by omega⟩).url) = none ∧
      (remove_url s url_id).urls.map (fun t => t.url) =
        (s.urls.map (fun t => t.url)).eraseIdx url_id.toNat ∧
      (remove_url s url_id).urls.map (fun t => t.name) =
        (s.urls.map (fun t => t.name)).eraseIdx url_id.toNat ∧
      (remove_url s url_id).urls.length + 1 = s.urls.length ∧
      (remove_url s url_id).monitoring = s.monitoring ∧
      idsContiguous (remove_url s url_id).urls) := by
  constructor
  · intro h
    exact remove_url_neg s url_id h
  · intro h
    rw [remove_url_pos s url_id h]
    refine ⟨rfl, by simp, ?_, ?_, ?_, rfl, ?_⟩
    · rw [reindexFrom_map_url, map_eraseIdx]
    · rw [reindexFrom_map_name, map_eraseIdx]
    · rw [reindexFrom_length, List.length_eraseIdx_add_one (by omega)]
    · intro i hlen
      rw [List.get_eq_getElem]
      have := reindexFrom_get (s.urls.eraseIdx url_id.toNat) 0 i hlen
      rw [List.get_eq_getElem] at this
      simpa using this

/-- The demo registry of three targets seeded by `main`
(api_monitor.py lines 592-595), with shorter urls. -/
def s3 : MonitorState :=
  add_url (add_url (add_url emptyMonitor "https://a.example" none)
    "https://b.example" none) "https://c.example" none

/-- Witness for C5: removing id 1 from a 3-target registry keeps ids
`{0,1}` with the other urls in order and makes the removed target's state
unretrievable; removing id 5 (and id -1) is a no-op. -/
theorem remove_target_spec_witness :
    remove_url s3 5 = s3 ∧
    remove_url s3 (-1) = s3 ∧
    (remove_url s3 1).status_data "https://b.example" = none ∧
    (remove_url s3 1).urls.map (fun t => t.id) = [0, 1] ∧
    (remove_url s3 1).urls.map (fun t => t.url) = ["https://a.example", "https://c.example"] :=
  ⟨(remove_target_spec s3 5).1 (by decide),
   (remove_target_spec s3 (-1)).1 (by decide),
   ((remove_target_spec s3 1).2 (by decide)).2.1,
   by decide, by decide⟩

/-- C7: `StartMonitoring` while already running, or while the registry is
empty, is a no-op leaving the state unchanged; from idle with a non-empty
registry it sets the running flag (the launch of the background loop is
the accompanying real-world effect) and touches nothing else. -/
theorem start_monitoring_spec (s : MonitorState) :
    (s.monitoring = true → start_monitoring s = s) ∧
    (s.urls = [] → start_monitoring s = s) ∧
    (s.monitoring = false → s.urls ≠ [] →
      (start_monitoring s).monitoring = true ∧
      (start_monitoring s).urls = s.urls ∧
      (start_monitoring s).status_data = s.status_data) := by
  refine ⟨?_, ?_, ?_⟩
  · intro h
    have hneg : ¬ (s.monitoring = false ∧ s.urls ≠ []) := by simp [h]
    unfold start_monitoring
    rw [if_neg hneg]
  · intro h
    have hneg : ¬ (s.monitoring = false ∧ s.urls ≠ []) := by simp [h]
    unfold start_monitoring
    rw [if_neg hneg]
  · intro h1 h2
    unfold start_monitoring
    rw [if_pos ⟨h1, h2⟩]
    exact ⟨rfl, rfl, rfl⟩

/-- Witness for C7: starting the empty registry is a no-op; starting the
3-target idle registry flips the flag; starting again right after is a
no-op. -/
theorem start_monitoring_spec_witness :
    start_monitoring emptyMonitor = emptyMonitor ∧
    (start_monitoring s3).monitoring = true ∧
    start_monitoring (start_monitoring s3) = start_monitoring s3 :=
  ⟨(start_monitoring_spec emptyMonitor).2.1 rfl,
   ((start_monitoring_spec s3).2.2 rfl (by decide)).1,
   (start_monitoring_spec (start_monitoring s3)).1
     ((start_monitoring_spec s3).2.2 rfl (by decide)).1⟩

/-- C8: `StopMonitoring` twice equals `StopMonitoring` once; the result is
idle (running = false) with everything else untouched, and stopping an
already idle state is a benign no-op. -/
theorem stop_monitoring_idempotent (s : MonitorState) :
    stop_monitoring (stop_monitoring s) = stop_monitoring s ∧
    (stop_monitoring s).monitoring = false ∧
    (stop_monitoring s).urls = s.urls ∧
    (stop_monitoring s).status_data = s.status_data ∧
    (s.monitoring = false → stop_monitoring s = s) := by
  refine ⟨rfl, rfl, rfl, rfl, ?_⟩
  intro h
  cases s with
  | mk u d m =>
      have hm : m = false := h
      subst hm
      rfl

/-- Witness for C8: stopping the just-started 3-target monitor twice gives
the same state as stopping it once, and stopping the idle empty monitor
leaves it unchanged. -/
theorem stop_monitoring_idempotent_witness :
    stop_monitoring (stop_monitoring (start_monitoring s3)) =
      stop_monitoring (start_monitoring s3) ∧
    (stop_monitoring (start_monitoring s3)).monitoring = false ∧
    stop_monitoring emptyMonitor = emptyMonitor :=
  ⟨(stop_monitoring_idempotent (start_monitoring s3)).1,
   (stop_monitoring_idempotent (start_monitoring s3)).2.1,
   (stop_monitoring_idempotent emptyMonitor).2.2.2.2 rfl⟩

theorem get_mem_eraseIdx_of_ne (l : List Target) (i j : Nat)
    (hi : i < l.length) (hj : j < l.length) (hne : j ≠ i) :
    l.get ⟨j, hj⟩ ∈ l.eraseIdx i := by
  have hlen : (l.eraseIdx i).length = l.length - 1 := by
    rw [List.length_eraseIdx, if_pos hi]
  rcases Nat.lt_or_ge j i with hlt | hge
  · have hb : j < (l.eraseIdx i).length := by omega
    have heq := List.getElem_eraseIdx l i j hb
    rw [dif_pos hlt] at heq
    have hmem := List.getElem_mem hb
    rw [heq] at hmem
    rw [List.get_eq_getElem]
    exact hmem
  · have hgt : i < j := by omega
    have hb : j - 1 < (l.eraseIdx i).length := by omega
    have heq := List.getElem_eraseIdx l i (j - 1) hb
    rw [dif_neg (by omega : ¬ (j - 1 < i))] at heq
    have hmem := List.getElem_mem hb
    rw [heq] at hmem
    have hidx : j - 1 + 1 = j := by omega
    simp only [hidx] at hmem
    rw [List.get_eq_getElem]
    exact hmem

/-- C10: `status_data` is keyed by url, so same-url targets share one
state entry: adding a url that is already registered appends a fresh
target but resets the shared entry to the initial state, discarding the
accumulated state; and removing either duplicate deletes the shared
entry, leaving the surviving same-url target with no retrievable state. -/
theorem duplicate_url_shared_state :
    (∀ (s : MonitorState) (u : String) (nm : Option String),
      (∃ t ∈ s.urls, t.url = u) →
      (add_url s u nm).status_data u = some initialTargetState ∧
      (add_url s u nm).urls =
        s.urls ++ [{ url := u, name := nm.getD u, id := s.urls.length }]) ∧
    (∀ (s : MonitorState) (i j : Nat) (hi : i < s.urls.length) (hj : j < s.urls.length),
      i ≠ j → (s.urls.get ⟨i, hi⟩).url = (s.urls.get ⟨j, hj⟩).url →
      (remove_url s i).status_data ((s.urls.get ⟨i, hi⟩).url) = none ∧
      (s.urls.get ⟨j, hj⟩).url ∈ (remove_url s i).urls.map (fun t => t.url)) := by
  constructor
  · intro s u nm _
    exact ⟨by simp [add_url], rfl⟩
  · intro s i j hi hj hne hurl
    have hc : 0 ≤ (i : Int) ∧ (i : Int) < s.urls.length := by omega
    constructor
    · rw [remove_url_pos s i hc]
      simp
    · rw [remove_url_pos s i hc]
      show _ ∈ (reindexFrom 0 (s.urls.eraseIdx (Int.toNat i))).map (fun t => t.url)
      rw [reindexFrom_map_url]
      have hmem : s.urls.get ⟨j, hj⟩ ∈ s.urls.eraseIdx (Int.toNat i) := by
        have : (Int.toNat i : Nat) = i := by simp
        rw [this]
        exact get_mem_eraseIdx_of_ne s.urls i j hi hj (fun hji => hne hji.symm)
      exact List.mem_map_of_mem _ hmem

/-- A registry holding the same url twice. -/
def sdup : MonitorState :=
  add_url (add_url emptyMonitor "https://dup.example" none)
    "https://dup.example" (some "second")

/-- Witness for C10: with the duplicate-url registry, re-adding the url
resets its shared state entry, and removing the first duplicate leaves
the url registered yet stateless. -/
theorem duplicate_url_shared_state_witness :
    (add_url sdup "https://dup.example" none).status_data "https://dup.example" =
      some initialTargetState ∧
    (remove_url sdup 0).status_data "https://dup.example" = none ∧
    "https://dup.example" ∈ (remove_url sdup 0).urls.map (fun t => t.url) :=
  ⟨(duplicate_url_shared_state.1 sdup "https://dup.example" none
      ⟨{ url := "https://dup.example", name := "https://dup.example", id := 0 },
        by decide, rfl⟩).1,
   (duplicate_url_shared_state.2 sdup 0 1 (by decide) (by decide) (by decide) rfl).1,
   (duplicate_url_shared_state.2 sdup 0 1 (by decide) (by decide) (by decide) rfl).2⟩

/-- The observable outcome of the `/api/history/<id>` handler: a JSON body
or an HTTP error response. -/
inductive HistoryResponse where
  | ok (body : List HistoryEntry)
  | err (code : Nat)
deriving DecidableEq, Repr

/-- The chained dict lookup `status_data.get(url, {}).get('history', [])`
applied to an optional `status_data` entry. -/
def historyOfData (d : Option TargetState) : List HistoryEntry :=
  match d with
  | some st => st.history
  | none => []

/-- `APIMonitorHandler.serve_history_json` (api_monitor.py lines 530-541):
inside bounds it serves `status_data.get(url, {}).get('history', [])`;
out of bounds it calls `send_error(404)`. -/
def serve_history_json (s : MonitorState) (url_id : Int) : HistoryResponse :=
  if h : 0 ≤ url_id ∧ url_id < s.urls.length then
    .ok (historyOfData (s.status_data (s.urls.get ⟨url_id.toNat, by omega⟩).url))
  else .err 404

/-- The history the handler serves for an in-bounds index: the stored
history, or `[]` when the url has no `status_data` entry. -/
def historyAt (s : MonitorState) (n : Nat) : List HistoryEntry :=
  match s.urls.get? n with
  | some t => historyOfData (s.status_data t.url)
  | none => []

/-- C6 counterexample: on the empty registry every id is invalid, and the
handler answers id 0 with a 404 error response, not with an empty history
list. -/
theorem get_history_invalid_counterexample :
    serve_history_json emptyMonitor 0 = .err 404 ∧
    serve_history_json emptyMonitor 0 ≠ .ok [] := by decide

/-- C6 amended: for an id outside `[0, length)` the history endpoint
responds with a 404 error; for a valid id it returns the stored history,
which is empty exactly when the target's url has no `status_data` entry
(or its history is empty). -/
theorem serve_history_spec (s : MonitorState) (url_id : Int) :
    (¬ (0 ≤ url_id ∧ url_id < s.urls.length) →
      serve_history_json s url_id = .err 404) ∧
    ((0 ≤ url_id ∧ url_id < s.urls.length) →
      serve_history_json s url_id = .ok (historyAt s url_id.toNat)) := by
  constructor
  · intro h
    unfold serve_history_json
    rw [dif_neg h]
  · intro h
    have hlt : url_id.toNat < s.urls.length := by omega
    unfold serve_history_json
    rw [dif_pos h]
    unfold historyAt
    rw [List.get?_eq_get hlt]

/-- Witness for C6: a too-large id and a negative id on the 3-target
registry get a 404 response; a valid id gets the (here empty) stored
history. -/
theorem serve_history_spec_witness :
    serve_history_json s3 7 = .err 404 ∧
    serve_history_json s3 (-1) = .err 404 ∧
    serve_history_json s3 0 = .ok (historyAt s3 0) :=
  ⟨(serve_history_spec s3 7).1 (by decide),
   (serve_history_spec s3 (-1)).1 (by decide),
   (serve_history_spec s3 0).2 (by decide)⟩

/-- C9 counterexample: two probes that fail with different error messages
produce identical history entries, so a history entry does not contain the
probe's errorMessage (the entry stores only timestamp, status,
response_time and status_code). -/
theorem history_entry_no_error_counterexample :
    historyEntryOfResult 0 (check_url (.urlError "host A unreachable") 5) =
      historyEntryOfResult 0 (check_url (.urlError "host B unreachable") 5) ∧
    (check_url (.urlError "host A unreachable") 5).error ≠
      (check_url (.urlError "host B unreachable") 5).error := by decide

/-- C9 amended: every entry the Scheduler appends is the push of a record
carrying the probe result's status, responseTimeMs and httpStatusCode
together with a timestamp — but not the errorMessage, which lives only in
the flattened latest fields of the target's state. -/
theorem history_entry_fields (d : TargetState) (r : CheckResult) (ts ts2 : Nat) :
    (updateStatusData d r ts ts2).history =
      pushHistory d.history (historyEntryOfResult ts2 r) ∧
    (historyEntryOfResult ts2 r).status = r.status ∧
    (historyEntryOfResult ts2 r).response_time = r.response_time ∧
    (historyEntryOfResult ts2 r).status_code = r.status_code ∧
    (historyEntryOfResult ts2 r).timestamp = ts2 ∧
    (updateStatusData d r ts ts2).error = r.error :=
  ⟨rfl, rfl, rfl, rfl, rfl, rfl⟩

end Monitor
